import Mathlib

/-
Verification of the distance-resolution and supply-demand reconciliation
pipeline (scripts 1_calculate_distances.py, 2_process_results.py,
a_calculate_distances.py, b_process_results.py).

Embedding conventions:
- Python floats are modelled as exact rationals (all the arithmetic the
  claims touch is addition, subtraction, comparison and division of small
  decimal values, which is exact at this granularity); where the code can
  produce the IEEE special values NaN and infinity (division by zero in the
  fulfillment-percentage formula) the result type RVal makes those values
  explicit.
- A pandas row lookup df.loc[df[key] == v, col].values[0] reads the first
  row whose key matches and raises IndexError when no row matches; it is
  modelled as List.find? followed by a field projection, with the raise
  modelled as Except.error.  An assignment df.loc[df[key] == v, col] = x
  writes every matching row and is modelled as List.map with a conditional
  record update.
- The HTTP routing backend is a black box; it is modelled as an oracle
  function passed as an argument, returning none for a failed request and
  some payload for a successful one.  Matrix entries may be null in a
  successful OSRM response, hence Option entries.
-/

/-- A value of a numpy float expression: either an exact rational or one of
the special values NaN, plus infinity, minus infinity. -/
inductive RVal where
  | val : ℚ → RVal
  | nan : RVal
  | pinf : RVal
  | ninf : RVal
deriving DecidableEq

/-- Producer row of from_data in 2_process_results.py: id, vegetable stock
PL_Tan and fruit stock PF_Tan. -/
structure Producer where
  id : ℕ
  PL_Tan : ℚ
  PF_Tan : ℚ
deriving DecidableEq

/-- Consumer row of to_data in 2_process_results.py: id, remaining vegetable
demand CL_Tan, remaining fruit demand CF_Tan, and the fulfillment-percentage
columns cptL / cptF (absent, i.e. none, until first written). -/
structure Consumer where
  id : ℕ
  CL_Tan : ℚ
  CF_Tan : ℚ
  cptL : Option RVal
  cptF : Option RVal
deriving DecidableEq

/-- One row of the routes table: producer id (id_from), consumer id (id_to),
the resolved osrm_distance_km (null when resolution failed) and the
km_parcourus ledger column (absent until written by the reconciliation
loop). -/
structure Route where
  id_from : ℕ
  id_to : ℕ
  osrm_distance_km : Option ℚ
  km_parcourus : Option ℚ
deriving DecidableEq

/-- The IndexError raised by .values[0] on an empty row selection in
calculer_besoins_et_offre, tagged with the id that had no matching row. -/
inductive RecError where
  | producerNotFound : ℕ → RecError
  | consumerNotFound : ℕ → RecError
deriving DecidableEq

/-- New producer stock for one commodity, from 2_process_results.py lines
59-71: diff = offre - demande; if diff > 0 the producer keeps diff,
otherwise the stock becomes 0. -/
def updatedStock (S D : ℚ) : ℚ :=
  if S - D > 0 then S - D else 0

/-- New remaining consumer demand for one commodity, from the same lines:
if diff > 0 the demand becomes 0, otherwise abs(diff). -/
def updatedDemand (S D : ℚ) : ℚ :=
  if S - D > 0 then 0 else |S - D|

/-- Float value of the expression (1 - remaining / demande) * 100 from
2_process_results.py lines 74-75.  When demande is nonzero the arithmetic
is exact; when demande = 0 numpy produces 0/0 = NaN (and x/0 = +-inf for
nonzero x, turning the whole expression into -+inf). -/
def pctExpr (remaining demande : ℚ) : RVal :=
  if demande = 0 then
    if remaining = 0 then RVal.nan
    else if remaining > 0 then RVal.ninf
    else RVal.pinf
  else RVal.val ((1 - remaining / demande) * 100)

/-- Body of the loop of calculer_besoins_et_offre (2_process_results.py
lines 42-78) for a single routes row: read the stock of the first producer
row matching id_from and the demand of the first consumer row matching
id_to (IndexError when none matches), update both commodities on every
matching row, write the fulfillment percentages from the freshly written
remaining demands, and copy osrm_distance_km into km_parcourus. -/
def calculer_step (from_data : List Producer) (to_data : List Consumer)
    (r : Route) : Except RecError (List Producer × List Consumer × Route) :=
  match from_data.find? (fun p => p.id == r.id_from) with
  | none => .error (RecError.producerNotFound r.id_from)
  | some p =>
    match to_data.find? (fun c => c.id == r.id_to) with
    | none => .error (RecError.consumerNotFound r.id_to)
    | some c =>
      let offre_leg := p.PL_Tan
      let demande_leg := c.CL_Tan
      let offre_fru := p.PF_Tan
      let demande_fru := c.CF_Tan
      let newPL := updatedStock offre_leg demande_leg
      let newCL := updatedDemand offre_leg demande_leg
      let newPF := updatedStock offre_fru demande_fru
      let newCF := updatedDemand offre_fru demande_fru
      let from_data' := from_data.map (fun q =>
        if q.id == r.id_from then { q with PL_Tan := newPL, PF_Tan := newPF } else q)
      let to_data' := to_data.map (fun d =>
        if d.id == r.id_to then
          { d with CL_Tan := newCL, CF_Tan := newCF,
                   cptL := some (pctExpr newCL demande_leg),
                   cptF := some (pctExpr newCF demande_fru) }
        else d)
      .ok (from_data', to_data', { r with km_parcourus := r.osrm_distance_km })

/-- calculer_besoins_et_offre (2_process_results.py lines 37-80): walk the
routes rows in order, threading the mutated producer and consumer tables
through each step; a raised IndexError aborts the walk. -/
def calculer_besoins_et_offre : List Producer → List Consumer → List Route →
    Except RecError (List Producer × List Consumer × List Route)
  | from_data, to_data, [] => .ok (from_data, to_data, [])
  | from_data, to_data, r :: rest =>
    match calculer_step from_data to_data r with
    | .error e => .error e
    | .ok (fd', td', r') =>
      match calculer_besoins_et_offre fd' td' rest with
      | .error e => .error e
      | .ok (fd'', td'', rest') => .ok (fd'', td'', r' :: rest')

/-- Stock of the first producer row matching an id (PL_Tan column). -/
def stockL (from_data : List Producer) (i : ℕ) : Option ℚ :=
  (from_data.find? (fun p => p.id == i)).map (fun p => p.PL_Tan)

/-- Stock of the first producer row matching an id (PF_Tan column). -/
def stockF (from_data : List Producer) (i : ℕ) : Option ℚ :=
  (from_data.find? (fun p => p.id == i)).map (fun p => p.PF_Tan)

/-- Remaining demand of the first consumer row matching an id (CL_Tan). -/
def demandL (to_data : List Consumer) (i : ℕ) : Option ℚ :=
  (to_data.find? (fun c => c.id == i)).map (fun c => c.CL_Tan)

/-- Remaining demand of the first consumer row matching an id (CF_Tan). -/
def demandF (to_data : List Consumer) (i : ℕ) : Option ℚ :=
  (to_data.find? (fun c => c.id == i)).map (fun c => c.CF_Tan)

/-- Fulfillment column cptL of the first consumer row matching an id. -/
def cptLOf (to_data : List Consumer) (i : ℕ) : Option (Option RVal) :=
  (to_data.find? (fun c => c.id == i)).map (fun c => c.cptL)

/-- Fulfillment column cptF of the first consumer row matching an id. -/
def cptFOf (to_data : List Consumer) (i : ℕ) : Option (Option RVal) :=
  (to_data.find? (fun c => c.id == i)).map (fun c => c.cptF)

/-- find? for a key commutes with a conditional update that rewrites exactly
the rows matching that key without changing any key. -/
lemma find?_map_update {α : Type} (key : α → ℕ) (i : ℕ) (f : α → α)
    (hf : ∀ a, key (f a) = key a) (l : List α) :
    (l.map (fun a => if key a == i then f a else a)).find? (fun a => key a == i)
      = (l.find? (fun a => key a == i)).map f := by
  induction l with
  | nil => rfl
  | cons a t ih =>
    by_cases h : (key a == i) = true
    · have hfa : (key (f a) == i) = true := by rw [hf]; exact h
      rw [List.map_cons, if_pos h]
      simp only [List.find?, hfa, h, Option.map_some']
    · have h' : (key a == i) = false := by simpa using h
      rw [List.map_cons, if_neg h]
      simp only [List.find?, h']
      exact ih

/-- A key absent from a table stays absent after any key-preserving map. -/
lemma find?_map_none {α : Type} (key : α → ℕ) (i : ℕ) (u : α → α)
    (hu : ∀ a, key (u a) = key a) (l : List α)
    (h : l.find? (fun a => key a == i) = none) :
    (l.map u).find? (fun a => key a == i) = none := by
  rw [List.find?_eq_none] at h ⊢
  intro x hx
  obtain ⟨a, ha, rfl⟩ := List.mem_map.mp hx
  simpa [hu] using h a ha

/-- Closed form of a successful calculer_step: both tables are rewritten by
a conditional record update on the rows matching the ids of the triple. -/
lemma calculer_step_ok (from_data : List Producer) (to_data : List Consumer)
    (r : Route) (p : Producer) (c : Consumer)
    (hp : from_data.find? (fun q => q.id == r.id_from) = some p)
    (hc : to_data.find? (fun d => d.id == r.id_to) = some c) :
    calculer_step from_data to_data r = .ok
      (from_data.map (fun q =>
        if q.id == r.id_from then
          { q with PL_Tan := updatedStock p.PL_Tan c.CL_Tan,
                   PF_Tan := updatedStock p.PF_Tan c.CF_Tan }
        else q),
       to_data.map (fun d =>
        if d.id == r.id_to then
          { d with CL_Tan := updatedDemand p.PL_Tan c.CL_Tan,
                   CF_Tan := updatedDemand p.PF_Tan c.CF_Tan,
                   cptL := some (pctExpr (updatedDemand p.PL_Tan c.CL_Tan) c.CL_Tan),
                   cptF := some (pctExpr (updatedDemand p.PF_Tan c.CF_Tan) c.CF_Tan) }
        else d),
       { r with km_parcourus := r.osrm_distance_km }) := by
  simp only [calculer_step, hp, hc]

/-- Claim C2: for a triple whose producer and consumer both exist, and for
each of the two commodities independently, with S the current stock and D
the current remaining demand and diff = S - D: if diff > 0 the new stock is
diff and the remaining demand becomes 0; otherwise the stock becomes 0 and
the remaining demand becomes abs diff. -/
theorem step_updates_stock_and_demand
    (from_data : List Producer) (to_data : List Consumer) (r : Route)
    (p : Producer) (c : Consumer)
    (hp : from_data.find? (fun q => q.id == r.id_from) = some p)
    (hc : to_data.find? (fun d => d.id == r.id_to) = some c) :
    ∃ fd' td' r', calculer_step from_data to_data r = .ok (fd', td', r') ∧
      ((p.PL_Tan - c.CL_Tan > 0 →
        stockL fd' r.id_from = some (p.PL_Tan - c.CL_Tan) ∧
        demandL td' r.id_to = some 0) ∧
       (p.PL_Tan - c.CL_Tan ≤ 0 →
        stockL fd' r.id_from = some 0 ∧
        demandL td' r.id_to = some |p.PL_Tan - c.CL_Tan|)) ∧
      ((p.PF_Tan - c.CF_Tan > 0 →
        stockF fd' r.id_from = some (p.PF_Tan - c.CF_Tan) ∧
        demandF td' r.id_to = some 0) ∧
       (p.PF_Tan - c.CF_Tan ≤ 0 →
        stockF fd' r.id_from = some 0 ∧
        demandF td' r.id_to = some |p.PF_Tan - c.CF_Tan|)) := by
  refine ⟨_, _, _, calculer_step_ok from_data to_data r p c hp hc, ?_, ?_⟩
  · have hs : stockL
        (from_data.map (fun q =>
          if q.id == r.id_from then
            { q with PL_Tan := updatedStock p.PL_Tan c.CL_Tan,
                     PF_Tan := updatedStock p.PF_Tan c.CF_Tan }
          else q)) r.id_from = some (updatedStock p.PL_Tan c.CL_Tan) := by
      unfold stockL
      rw [find?_map_update Producer.id r.id_from (fun q =>
          { q with PL_Tan := updatedStock p.PL_Tan c.CL_Tan,
                   PF_Tan := updatedStock p.PF_Tan c.CF_Tan }) (fun a => rfl), hp]
      rfl
    have hd : demandL
        (to_data.map (fun d =>
          if d.id == r.id_to then
            { d with CL_Tan := updatedDemand p.PL_Tan c.CL_Tan,
                     CF_Tan := updatedDemand p.PF_Tan c.CF_Tan,
                     cptL := some (pctExpr (updatedDemand p.PL_Tan c.CL_Tan) c.CL_Tan),
                     cptF := some (pctExpr (updatedDemand p.PF_Tan c.CF_Tan) c.CF_Tan) }
          else d)) r.id_to = some (updatedDemand p.PL_Tan c.CL_Tan) := by
      unfold demandL
      rw [find?_map_update Consumer.id r.id_to (fun d =>
          { d with CL_Tan := updatedDemand p.PL_Tan c.CL_Tan,
                   CF_Tan := updatedDemand p.PF_Tan c.CF_Tan,
                   cptL := some (pctExpr (updatedDemand p.PL_Tan c.CL_Tan) c.CL_Tan),
                   cptF := some (pctExpr (updatedDemand p.PF_Tan c.CF_Tan) c.CF_Tan) }) (fun a => rfl), hc]
      rfl
    constructor
    · intro hpos
      rw [hs, hd]
      unfold updatedStock updatedDemand
      rw [if_pos hpos, if_pos hpos]
      exact ⟨rfl, rfl⟩
    · intro hle
      rw [hs, hd]
      unfold updatedStock updatedDemand
      rw [if_neg (by linarith), if_neg (by linarith)]
      exact ⟨rfl, rfl⟩
  · have hs : stockF
        (from_data.map (fun q =>
          if q.id == r.id_from then
            { q with PL_Tan := updatedStock p.PL_Tan c.CL_Tan,
                     PF_Tan := updatedStock p.PF_Tan c.CF_Tan }
          else q)) r.id_from = some (updatedStock p.PF_Tan c.CF_Tan) := by
      unfold stockF
      rw [find?_map_update Producer.id r.id_from (fun q =>
          { q with PL_Tan := updatedStock p.PL_Tan c.CL_Tan,
                   PF_Tan := updatedStock p.PF_Tan c.CF_Tan }) (fun a => rfl), hp]
      rfl
    have hd : demandF
        (to_data.map (fun d =>
          if d.id == r.id_to then
            { d with CL_Tan := updatedDemand p.PL_Tan c.CL_Tan,
                     CF_Tan := updatedDemand p.PF_Tan c.CF_Tan,
                     cptL := some (pctExpr (updatedDemand p.PL_Tan c.CL_Tan) c.CL_Tan),
                     cptF := some (pctExpr (updatedDemand p.PF_Tan c.CF_Tan) c.CF_Tan) }
          else d)) r.id_to = some (updatedDemand p.PF_Tan c.CF_Tan) := by
      unfold demandF
      rw [find?_map_update Consumer.id r.id_to (fun d =>
          { d with CL_Tan := updatedDemand p.PL_Tan c.CL_Tan,
                   CF_Tan := updatedDemand p.PF_Tan c.CF_Tan,
                   cptL := some (pctExpr (updatedDemand p.PL_Tan c.CL_Tan) c.CL_Tan),
                   cptF := some (pctExpr (updatedDemand p.PF_Tan c.CF_Tan) c.CF_Tan) }) (fun a => rfl), hc]
      rfl
    constructor
    · intro hpos
      rw [hs, hd]
      unfold updatedStock updatedDemand
      rw [if_pos hpos, if_pos hpos]
      exact ⟨rfl, rfl⟩
    · intro hle
      rw [hs, hd]
      unfold updatedStock updatedDemand
      rw [if_neg (by linarith), if_neg (by linarith)]
      exact ⟨rfl, rfl⟩

/-- Claim C2 witness: producer stock (10, 4), consumer demand (4, 10). -/
theorem step_updates_stock_and_demand_witness :
    ∃ fd' td' r',
      calculer_step [⟨1, 10, 4⟩] [⟨1, 4, 10, none, none⟩] ⟨1, 1, none, none⟩ =
        .ok (fd', td', r') ∧
      (((10 : ℚ) - 4 > 0 → stockL fd' 1 = some (10 - 4) ∧ demandL td' 1 = some 0) ∧
       ((10 : ℚ) - 4 ≤ 0 → stockL fd' 1 = some 0 ∧ demandL td' 1 = some |(10 : ℚ) - 4|)) ∧
      (((4 : ℚ) - 10 > 0 → stockF fd' 1 = some (4 - 10) ∧ demandF td' 1 = some 0) ∧
       ((4 : ℚ) - 10 ≤ 0 → stockF fd' 1 = some 0 ∧ demandF td' 1 = some |(4 : ℚ) - 10|)) :=
  step_updates_stock_and_demand [⟨1, 10, 4⟩] [⟨1, 4, 10, none, none⟩]
    ⟨1, 1, none, none⟩ ⟨1, 10, 4⟩ ⟨1, 4, 10, none, none⟩ (by simp) (by simp)

/-- Claim C3 (amended): the fulfillment percentage written by a triple is
(1 - new_remaining / D_pre) * 100 where D_pre is the remaining demand the
consumer had when the triple started being processed (this equals the
original demand only on the first triple that touches the consumer). -/
theorem fulfillment_pct_formula
    (from_data : List Producer) (to_data : List Consumer) (r : Route)
    (p : Producer) (c : Consumer)
    (hp : from_data.find? (fun q => q.id == r.id_from) = some p)
    (hc : to_data.find? (fun d => d.id == r.id_to) = some c)
    (hL : c.CL_Tan ≠ 0) (hF : c.CF_Tan ≠ 0) :
    ∃ fd' td' r', calculer_step from_data to_data r = .ok (fd', td', r') ∧
      cptLOf td' r.id_to =
        some (some (RVal.val
          ((1 - updatedDemand p.PL_Tan c.CL_Tan / c.CL_Tan) * 100))) ∧
      cptFOf td' r.id_to =
        some (some (RVal.val
          ((1 - updatedDemand p.PF_Tan c.CF_Tan / c.CF_Tan) * 100))) := by
  refine ⟨_, _, _, calculer_step_ok from_data to_data r p c hp hc, ?_, ?_⟩
  · unfold cptLOf
    rw [find?_map_update Consumer.id r.id_to
        (fun d =>
          { d with CL_Tan := updatedDemand p.PL_Tan c.CL_Tan,
                   CF_Tan := updatedDemand p.PF_Tan c.CF_Tan,
                   cptL := some (pctExpr (updatedDemand p.PL_Tan c.CL_Tan) c.CL_Tan),
                   cptF := some (pctExpr (updatedDemand p.PF_Tan c.CF_Tan) c.CF_Tan) })
        (fun a => rfl), hc]
    simp only [Option.map_some']
    rw [pctExpr, if_neg hL]
  · unfold cptFOf
    rw [find?_map_update Consumer.id r.id_to
        (fun d =>
          { d with CL_Tan := updatedDemand p.PL_Tan c.CL_Tan,
                   CF_Tan := updatedDemand p.PF_Tan c.CF_Tan,
                   cptL := some (pctExpr (updatedDemand p.PL_Tan c.CL_Tan) c.CL_Tan),
                   cptF := some (pctExpr (updatedDemand p.PF_Tan c.CF_Tan) c.CF_Tan) })
        (fun a => rfl), hc]
    simp only [Option.map_some']
    rw [pctExpr, if_neg hF]

/-- Claim C3 witness: stock 10 against demand 4 gives 100 percent, stock 4
against demand 10 gives 40 percent. -/
theorem fulfillment_pct_formula_witness :
    ∃ fd' td' r',
      calculer_step [⟨1, 10, 4⟩] [⟨1, 4, 10, none, none⟩] ⟨1, 1, none, none⟩ =
        .ok (fd', td', r') ∧
      cptLOf td' 1 = some (some (RVal.val 100)) ∧
      cptFOf td' 1 = some (some (RVal.val 40)) := by
  obtain ⟨fd', td', r', h1, h2, h3⟩ :=
    fulfillment_pct_formula [⟨1, 10, 4⟩] [⟨1, 4, 10, none, none⟩] ⟨1, 1, none, none⟩
      ⟨1, 10, 4⟩ ⟨1, 4, 10, none, none⟩ (by simp) (by simp) (by norm_num) (by norm_num)
  refine ⟨fd', td', r', h1, ?_, ?_⟩
  · rw [h2]
    norm_num [updatedDemand]
  · rw [h3]
    norm_num [updatedDemand, abs_of_nonpos]

/-- Producers for the C3 counterexample: ids 1 and 2 with vegetable stocks
4 and 3. -/
def fdC3 : List Producer := [⟨1, 4, 0⟩, ⟨2, 3, 0⟩]

/-- Single consumer with original vegetable demand 10. -/
def tdC3 : List Consumer := [⟨1, 10, 0, none, none⟩]

/-- Two triples feeding the same consumer from the two producers. -/
def rtsC3 : List Route := [⟨1, 1, none, none⟩, ⟨2, 1, none, none⟩]

/-- Claim C3 counterexample: consumer 1 (original demand 10) is served by
producer 1 (stock 4, leaving remaining demand 6, percentage 40) and then by
producer 2 (stock 3, leaving remaining demand 3).  The code stores
(1 - 3/6) * 100 = 50, but the formula of the claim with the preserved
original demand would give (1 - 3/10) * 100 = 70. -/
theorem fulfillment_pct_counterexample :
    calculer_besoins_et_offre fdC3 tdC3 rtsC3 =
      .ok ([⟨1, 0, 0⟩, ⟨2, 0, 0⟩],
           [⟨1, 3, 0, some (RVal.val 50), some RVal.nan⟩],
           [⟨1, 1, none, none⟩, ⟨2, 1, none, none⟩]) ∧
    RVal.val 50 ≠ RVal.val ((1 - 3 / 10) * 100) := by
  constructor
  · simp +decide [fdC3, tdC3, rtsC3, calculer_besoins_et_offre, calculer_step,
      updatedStock, updatedDemand, pctExpr, List.find?]
    norm_num
  · simp only [ne_eq, RVal.val.injEq]
    norm_num

/-- Single producer with stocks 5 and 5 for the C4 run. -/
def fdC4 : List Producer := [⟨1, 5, 5⟩]

/-- Single consumer whose original demand is 0 for both commodities. -/
def tdC4 : List Consumer := [⟨1, 0, 0, none, none⟩]

/-- Claim C4 (code bug): with an original demand of 0 the code computes
(1 - 0/0) * 100, which numpy evaluates to NaN, and stores that NaN in the
persisted cptL / cptF columns; NaN is not a distinct not-applicable
marker and differs from no value having been written. -/
theorem zero_demand_emits_nan :
    calculer_step fdC4 tdC4 ⟨1, 1, none, none⟩ =
      .ok ([⟨1, 5, 5⟩], [⟨1, 0, 0, some RVal.nan, some RVal.nan⟩],
           ⟨1, 1, none, none⟩) ∧
    RVal.nan ≠ RVal.val 100 ∧ RVal.nan ≠ RVal.val 0 := by
  refine ⟨?_, by simp, by simp⟩
  simp +decide [fdC4, tdC4, calculer_step, updatedStock, updatedDemand,
    pctExpr, List.find?]

/-- Producer P1 with vegetable stock 10 for the C5 run. -/
def fdC5 : List Producer := [⟨1, 10, 0⟩]

/-- Consumers C1 and C2, each with vegetable demand 7. -/
def tdC5 : List Consumer := [⟨1, 7, 0, none, none⟩, ⟨2, 7, 0, none, none⟩]

/-- Triple P1 to C1, carrying a resolved distance of 2 km. -/
def r11C5 : Route := ⟨1, 1, some 2, none⟩

/-- Triple P1 to C2 (distance unresolved). -/
def r12C5 : Route := ⟨1, 2, none, none⟩

/-- Claim C5: processing [(P1,C1),(P1,C2)] with stock 10 and demands 7 and 7
serves C1 fully (stock 3 after the first triple, demand 0) and C2 only in
part (final stock 0, remaining demand 4); reversing the sequence swaps
which consumer is shorted. -/
theorem reconciliation_order_dependence :
    calculer_besoins_et_offre fdC5 tdC5 [r11C5, r12C5] =
      .ok ([⟨1, 0, 0⟩],
           [⟨1, 0, 0, some (RVal.val 100), some RVal.nan⟩,
            ⟨2, 4, 0, some (RVal.val (300 / 7)), some RVal.nan⟩],
           [⟨1, 1, some 2, some 2⟩, ⟨1, 2, none, none⟩]) ∧
    calculer_step fdC5 tdC5 r11C5 =
      .ok ([⟨1, 3, 0⟩],
           [⟨1, 0, 0, some (RVal.val 100), some RVal.nan⟩,
            ⟨2, 7, 0, none, none⟩],
           ⟨1, 1, some 2, some 2⟩) ∧
    calculer_besoins_et_offre fdC5 tdC5 [r12C5, r11C5] =
      .ok ([⟨1, 0, 0⟩],
           [⟨1, 4, 0, some (RVal.val (300 / 7)), some RVal.nan⟩,
            ⟨2, 0, 0, some (RVal.val 100), some RVal.nan⟩],
           [⟨1, 2, none, none⟩, ⟨1, 1, some 2, some 2⟩]) := by
  refine ⟨?_, ?_, ?_⟩ <;>
    · simp +decide [fdC5, tdC5, r11C5, r12C5, calculer_besoins_et_offre,
        calculer_step, updatedStock, updatedDemand, pctExpr, List.find?]
      norm_num

/-- The stock written by an update is never negative. -/
lemma updatedStock_nonneg (S D : ℚ) : 0 ≤ updatedStock S D := by
  unfold updatedStock
  split
  · linarith
  · exact le_refl 0

/-- The stock update is the clamp max 0 (S - D). -/
lemma updatedStock_eq_max (S D : ℚ) : updatedStock S D = max 0 (S - D) := by
  unfold updatedStock
  split
  · rw [max_eq_right]
    linarith
  · rw [max_eq_left]
    linarith

/-- A successful step keeps every producer stock nonnegative. -/
lemma step_preserves_nonneg (from_data : List Producer) (to_data : List Consumer)
    (r : Route) (fd' : List Producer) (td' : List Consumer) (r' : Route)
    (h : calculer_step from_data to_data r = .ok (fd', td', r'))
    (h0 : ∀ p ∈ from_data, 0 ≤ p.PL_Tan ∧ 0 ≤ p.PF_Tan) :
    ∀ p ∈ fd', 0 ≤ p.PL_Tan ∧ 0 ≤ p.PF_Tan := by
  cases hp : from_data.find? (fun q => q.id == r.id_from) with
  | none =>
    rw [calculer_step, hp] at h
    exact absurd h (by simp)
  | some p =>
    cases hc : to_data.find? (fun d => d.id == r.id_to) with
    | none =>
      rw [calculer_step, hp, hc] at h
      exact absurd h (by simp)
    | some c =>
      rw [calculer_step_ok from_data to_data r p c hp hc] at h
      simp only [Except.ok.injEq, Prod.mk.injEq] at h
      obtain ⟨h1, h2, h3⟩ := h
      intro q hq
      rw [← h1] at hq
      obtain ⟨a, ha, rfl⟩ := List.mem_map.mp hq
      by_cases hid : (a.id == r.id_from) = true
      · rw [if_pos hid]
        exact ⟨updatedStock_nonneg _ _, updatedStock_nonneg _ _⟩
      · rw [if_neg hid]
        exact h0 a ha

/-- A successful full pass keeps every producer stock nonnegative. -/
lemma pass_preserves_nonneg :
    ∀ (routes : List Route) (from_data : List Producer) (to_data : List Consumer)
      (fd' : List Producer) (td' : List Consumer) (rts' : List Route),
      calculer_besoins_et_offre from_data to_data routes = .ok (fd', td', rts') →
      (∀ p ∈ from_data, 0 ≤ p.PL_Tan ∧ 0 ≤ p.PF_Tan) →
      ∀ p ∈ fd', 0 ≤ p.PL_Tan ∧ 0 ≤ p.PF_Tan := by
  intro routes
  induction routes with
  | nil =>
    intro fd td fd' td' rts' h h0
    simp only [calculer_besoins_et_offre, Except.ok.injEq, Prod.mk.injEq] at h
    obtain ⟨h1, h2, h3⟩ := h
    rw [← h1]
    exact h0
  | cons r rest ih =>
    intro fd td fd' td' rts' h h0
    rw [calculer_besoins_et_offre] at h
    cases hstep : calculer_step fd td r with
    | error e =>
      rw [hstep] at h
      exact absurd h (by simp)
    | ok s =>
      obtain ⟨fd1, td1, r1⟩ := s
      simp only [hstep] at h
      cases hrec : calculer_besoins_et_offre fd1 td1 rest with
      | error e =>
        rw [hrec] at h
        exact absurd h (by simp)
      | ok s2 =>
        obtain ⟨fd2, td2, rest2⟩ := s2
        rw [hrec] at h
        simp only [Except.ok.injEq, Prod.mk.injEq] at h
        obtain ⟨h1, h2, h3⟩ := h
        rw [← h1]
        exact ih fd1 td1 fd2 td2 rest2 hrec
          (step_preserves_nonneg fd td r fd1 td1 r1 hstep h0)

/-- Claim C8: when the initial producer stocks are nonnegative, every stock
after a successful reconciliation pass is nonnegative; moreover each update
writes exactly the clamp max 0 (S - D). -/
theorem stock_nonnegative
    (from_data : List Producer) (to_data : List Consumer) (routes : List Route)
    (fd' : List Producer) (td' : List Consumer) (rts' : List Route)
    (h0 : ∀ p ∈ from_data, 0 ≤ p.PL_Tan ∧ 0 ≤ p.PF_Tan)
    (hrun : calculer_besoins_et_offre from_data to_data routes = .ok (fd', td', rts')) :
    (∀ p ∈ fd', 0 ≤ p.PL_Tan ∧ 0 ≤ p.PF_Tan) ∧
    ∀ S D : ℚ, updatedStock S D = max 0 (S - D) :=
  ⟨pass_preserves_nonneg routes from_data to_data fd' td' rts' hrun h0,
   fun S D => updatedStock_eq_max S D⟩

/-- Claim C8 witness: concrete run with stock 10 against demand 7. -/
theorem stock_nonnegative_witness :
    (∀ p ∈ ([⟨1, 10, 0⟩] : List Producer), 0 ≤ p.PL_Tan ∧ 0 ≤ p.PF_Tan) ∧
    ((∀ p ∈ ([⟨1, 3, 0⟩] : List Producer), 0 ≤ p.PL_Tan ∧ 0 ≤ p.PF_Tan) ∧
     ∀ S D : ℚ, updatedStock S D = max 0 (S - D)) := by
  refine ⟨?_, ?_⟩
  · intro p hp
    simp only [List.mem_singleton] at hp
    rw [hp]
    norm_num
  · exact stock_nonnegative [⟨1, 10, 0⟩] [⟨1, 7, 0, none, none⟩] [⟨1, 1, none, none⟩]
      [⟨1, 3, 0⟩] [⟨1, 0, 0, some (RVal.val 100), some RVal.nan⟩] [⟨1, 1, none, none⟩]
      (by
        intro p hp
        simp only [List.mem_singleton] at hp
        rw [hp]
        norm_num)
      (by
        simp +decide [calculer_besoins_et_offre, calculer_step, updatedStock,
          updatedDemand, pctExpr, List.find?]
        norm_num)

/-- A triple whose producer id or consumer id has no matching row makes the
step raise (IndexError from .values[0]), identifying the missing id. -/
lemma calculer_step_absent (from_data : List Producer) (to_data : List Consumer)
    (r : Route)
    (habs : from_data.find? (fun q => q.id == r.id_from) = none ∨
            to_data.find? (fun d => d.id == r.id_to) = none) :
    ∃ e, calculer_step from_data to_data r = .error e ∧
      (e = RecError.producerNotFound r.id_from ∨
       e = RecError.consumerNotFound r.id_to) := by
  cases hp : from_data.find? (fun q => q.id == r.id_from) with
  | none =>
    refine ⟨RecError.producerNotFound r.id_from, ?_, Or.inl rfl⟩
    simp only [calculer_step, hp]
  | some p =>
    cases hc : to_data.find? (fun d => d.id == r.id_to) with
    | none =>
      refine ⟨RecError.consumerNotFound r.id_to, ?_, Or.inr rfl⟩
      simp only [calculer_step, hp, hc]
    | some c =>
      rcases habs with h | h
      · rw [hp] at h
        exact absurd h (by simp)
      · rw [hc] at h
        exact absurd h (by simp)

/-- A producer id absent before a successful step is still absent after it:
the step never inserts rows, it only rewrites existing ones. -/
lemma step_preserves_absent_producer (from_data : List Producer)
    (to_data : List Consumer) (r : Route) (fd' : List Producer)
    (td' : List Consumer) (r' : Route) (i : ℕ)
    (h : calculer_step from_data to_data r = .ok (fd', td', r'))
    (habs : from_data.find? (fun q => q.id == i) = none) :
    fd'.find? (fun q => q.id == i) = none := by
  cases hp : from_data.find? (fun q => q.id == r.id_from) with
  | none =>
    rw [calculer_step, hp] at h
    exact absurd h (by simp)
  | some p =>
    cases hc : to_data.find? (fun d => d.id == r.id_to) with
    | none =>
      rw [calculer_step, hp, hc] at h
      exact absurd h (by simp)
    | some c =>
      rw [calculer_step_ok from_data to_data r p c hp hc] at h
      simp only [Except.ok.injEq, Prod.mk.injEq] at h
      obtain ⟨h1, h2, h3⟩ := h
      rw [← h1]
      refine find?_map_none Producer.id i _ ?_ from_data habs
      intro a
      by_cases hid : (a.id == r.id_from) = true
      · rw [if_pos hid]
      · rw [if_neg hid]

/-- A consumer id absent before a successful step is still absent after. -/
lemma step_preserves_absent_consumer (from_data : List Producer)
    (to_data : List Consumer) (r : Route) (fd' : List Producer)
    (td' : List Consumer) (r' : Route) (i : ℕ)
    (h : calculer_step from_data to_data r = .ok (fd', td', r'))
    (habs : to_data.find? (fun d => d.id == i) = none) :
    td'.find? (fun d => d.id == i) = none := by
  cases hp : from_data.find? (fun q => q.id == r.id_from) with
  | none =>
    rw [calculer_step, hp] at h
    exact absurd h (by simp)
  | some p =>
    cases hc : to_data.find? (fun d => d.id == r.id_to) with
    | none =>
      rw [calculer_step, hp, hc] at h
      exact absurd h (by simp)
    | some c =>
      rw [calculer_step_ok from_data to_data r p c hp hc] at h
      simp only [Except.ok.injEq, Prod.mk.injEq] at h
      obtain ⟨h1, h2, h3⟩ := h
      rw [← h2]
      refine find?_map_none Consumer.id i _ ?_ to_data habs
      intro a
      by_cases hid : (a.id == r.id_to) = true
      · rw [if_pos hid]
      · rw [if_neg hid]

/-- A pass over a route list containing a triple with a dangling id never
returns ok: either an earlier triple already raised, or the walk reaches
that triple, whose id is still dangling, and raises there. -/
lemma pass_error_of_absent :
    ∀ (routes : List Route) (from_data : List Producer) (to_data : List Consumer)
      (r : Route), r ∈ routes →
      (from_data.find? (fun q => q.id == r.id_from) = none ∨
       to_data.find? (fun d => d.id == r.id_to) = none) →
      ∀ res, calculer_besoins_et_offre from_data to_data routes ≠ .ok res := by
  intro routes
  induction routes with
  | nil =>
    intro fd td r hmem
    exact absurd hmem (by simp)
  | cons r0 rest ih =>
    intro fd td r hmem habs res h
    rw [calculer_besoins_et_offre] at h
    cases hstep : calculer_step fd td r0 with
    | error e =>
      rw [hstep] at h
      exact absurd h (by simp)
    | ok s =>
      obtain ⟨fd1, td1, r1⟩ := s
      simp only [hstep] at h
      rcases List.mem_cons.mp hmem with rfl | hmem'
      · obtain ⟨e, he, _⟩ := calculer_step_absent fd td r habs
        rw [he] at hstep
        exact absurd hstep (by simp)
      · have habs' : fd1.find? (fun q => q.id == r.id_from) = none ∨
            td1.find? (fun d => d.id == r.id_to) = none := by
          rcases habs with h1 | h1
          · exact Or.inl (step_preserves_absent_producer fd td r0 fd1 td1 r1 _ hstep h1)
          · exact Or.inr (step_preserves_absent_consumer fd td r0 fd1 td1 r1 _ hstep h1)
        cases hrec : calculer_besoins_et_offre fd1 td1 rest with
        | error e =>
          rw [hrec] at h
          exact absurd h (by simp)
        | ok s2 =>
          exact ih fd1 td1 r hmem' habs' s2 hrec

/-- Claim C9: a triple referencing a producer or consumer id that is absent
from the record set makes its processing raise with the offending id (the
IndexError of an empty .values lookup); it is neither silently skipped nor
zero-filled, and a pass over a route list containing such a triple never
returns ok. -/
theorem unknown_id_errors
    (from_data : List Producer) (to_data : List Consumer)
    (routes : List Route) (r : Route)
    (hmem : r ∈ routes)
    (habs : from_data.find? (fun q => q.id == r.id_from) = none ∨
            to_data.find? (fun d => d.id == r.id_to) = none) :
    (∃ e, calculer_step from_data to_data r = .error e ∧
      (e = RecError.producerNotFound r.id_from ∨
       e = RecError.consumerNotFound r.id_to)) ∧
    ∀ res, calculer_besoins_et_offre from_data to_data routes ≠ .ok res :=
  ⟨calculer_step_absent from_data to_data r habs,
   pass_error_of_absent routes from_data to_data r hmem habs⟩

/-- Claim C9 witness: the table holds producer 2 only, while the triple
references producer 1. -/
theorem unknown_id_errors_witness :
    (∃ e, calculer_step [⟨2, 1, 1⟩] [⟨1, 1, 1, none, none⟩] ⟨1, 1, none, none⟩ =
        .error e ∧
      (e = RecError.producerNotFound 1 ∨ e = RecError.consumerNotFound 1)) ∧
    ∀ res, calculer_besoins_et_offre [⟨2, 1, 1⟩] [⟨1, 1, 1, none, none⟩]
      [⟨1, 1, none, none⟩] ≠ .ok res :=
  unknown_id_errors [⟨2, 1, 1⟩] [⟨1, 1, 1, none, none⟩] [⟨1, 1, none, none⟩]
    ⟨1, 1, none, none⟩ (by simp) (Or.inl (by simp))

/-- A longitude-latitude pair. -/
abbrev Coord := ℚ × ℚ

/-- A 2-D matrix as returned by the OSRM table endpoint; individual entries
may be null for unroutable pairs. -/
abbrev OsrmMatrix := List (List (Option ℚ))

/-- Black-box model of osrm_table in 1_calculate_distances.py: given the
source and destination coordinate lists of one request it returns the
distances and durations matrices of a successful response, or none for the
(None, None) outcome of a failed or malformed request. -/
abbrev TableOracle := List Coord → List Coord → Option (OsrmMatrix × OsrmMatrix)

/-- One row of the route table of 1_calculate_distances.py (columns X1, Y1,
X2, Y2). -/
structure RouteRow where
  X1 : ℚ
  Y1 : ℚ
  X2 : ℚ
  Y2 : ℚ
deriving DecidableEq

/-- One result dictionary of process_batch in 1_calculate_distances.py:
the index key holds batch.index[j], the original row label. -/
structure BatchResult where
  index : ℕ
  osrm_distance_km : ℚ
  osrm_duration_min : ℚ
deriving DecidableEq

/-- process_batch of 1_calculate_distances.py.  The batch is a slice of the
enumerated route table, so each element carries its original position as
label.  The body mirrors the source: ask the table oracle once for the whole
batch; on a falsy reply (None or an empty matrix) return no results; else
for each j read distances[j][0] and durations[j][0] - the column-0 entries -
and emit a result tagged batch.index[j]; a null entry (TypeError on
None / 1000) or missing row (IndexError) is caught and that record is
skipped. -/
def process_batch (osrm_table : TableOracle) (batch : List (ℕ × RouteRow)) :
    List BatchResult :=
  let src_coords := batch.map (fun rw => (rw.2.X1, rw.2.Y1))
  let dst_coords := batch.map (fun rw => (rw.2.X2, rw.2.Y2))
  match osrm_table src_coords dst_coords with
  | some (distances, durations) =>
    if distances.isEmpty || durations.isEmpty then [] else
    (List.range batch.length).filterMap (fun j =>
      match batch.get? j, (distances.get? j).bind (fun row => row.get? 0),
            (durations.get? j).bind (fun row => row.get? 0) with
      | some rw, some (some dist), some (some dur) =>
        some { index := rw.1, osrm_distance_km := dist / 1000,
               osrm_duration_min := dur / 60 }
      | _, _, _ => none)
  | none => []

/-- process_in_parallel of 1_calculate_distances.py: the route table is
reset_index, so row labels are the original positions 0..n-1; the loop
range(0, len(route), batch_size) slices iloc[i:i+batch_size] windows and
submits each to process_batch.  The workers only read their own batch and
results are merged by index afterwards, so collecting them in submission
order is equivalent to any completion order. -/
def process_in_parallel (osrm_table : TableOracle) (route : List RouteRow)
    (batch_size : ℕ) : List BatchResult :=
  (((List.range ((route.length + batch_size - 1) / batch_size)).map
      (fun k => k * batch_size)).map
    (fun i => process_batch osrm_table ((route.enum.drop i).take batch_size))).flatten

/-- Extraction step of osrm_table_batch in a_calculate_distances.py (line
64): from the distances and durations matrices of a table response over
src_coords ++ dst_coords, pair i is read at row i, column i + len(src_coords). -/
def osrm_table_batch (src_count : ℕ) (distances durations : List (List ℚ)) :
    List (Option ℚ × Option ℚ) :=
  (List.range src_count).map (fun i =>
    ((distances.get? i).bind (fun row => row.get? (i + src_count)),
     (durations.get? i).bind (fun row => row.get? (i + src_count))))

/-- One result dictionary of process_pair in a_calculate_distances.py. -/
structure PairResult where
  index : ℕ
  distance_km : Option ℚ
  duration_min : Option ℚ
deriving DecidableEq

/-- process_pair of a_calculate_distances.py.  The osrm_route outcome is
some (dist, dur) for a successful request and none for the (None, None)
failure outcome.  The source computes dist / 1000 if dist else None: the
Python truthiness test makes both None and a distance of exactly 0 fall to
the None branch, and likewise for the duration. -/
def process_pair (osrm_route : Option (ℚ × ℚ)) (index : ℕ) : PairResult :=
  { index := index
    distance_km :=
      match osrm_route with
      | some du => if du.1 = 0 then none else some (du.1 / 1000)
      | none => none
    duration_min :=
      match osrm_route with
      | some du => if du.2 = 0 then none else some (du.2 / 60)
      | none => none }

/-- process_in_parallel of a_calculate_distances.py, single-pair mode: one
process_pair call per row, tagged with the row index of iterrows (the
original position).  The list of backend outcomes stands for the OSRM
responses, one per pair in order. -/
def process_in_parallel_single (outcomes : List (Option (ℚ × ℚ))) :
    List PairResult :=
  outcomes.enum.map (fun pr => process_pair pr.2 pr.1)

/-- The distance_km column of the route table after the merge loop of main
in a_calculate_distances.py (route.at[result.index] = ...): every index
appears in exactly one result, so the merged column in index order is the
per-pair distance_km field, whatever order the futures completed in. -/
def mergedDistances (outcomes : List (Option (ℚ × ℚ))) : List (Option ℚ) :=
  (process_in_parallel_single outcomes).map (fun pr => pr.distance_km)

/-- num_failures of main in a_calculate_distances.py:
route.distance_km.isna().sum(), the number of null entries of the merged
distance column. -/
def num_failures (outcomes : List (Option (ℚ × ℚ))) : ℕ :=
  (mergedDistances outcomes).countP (fun d => d.isNone)

/-- A backend outcome whose distance is nonzero (or a failure). -/
def nonzeroDist (res : Option (ℚ × ℚ)) : Bool :=
  match res with
  | some du => du.1 != 0
  | none => true

/-- Synthetic 4x4 matrix with a distinguishable value 10r + c per cell. -/
def synthMatrix : List (List ℚ) :=
  [[0, 1, 2, 3], [10, 11, 12, 13], [20, 21, 22, 23], [30, 31, 32, 33]]

/-- The same synthetic matrix as a table response with every entry present. -/
def synthMatrixO : OsrmMatrix := synthMatrix.map (fun row => row.map some)

/-- Oracle answering every table request with the synthetic matrices. -/
def synthOracle : TableOracle := fun _ _ => some (synthMatrixO, synthMatrixO)

/-- A two-row batch carrying original labels 0 and 1. -/
def synthBatch : List (ℕ × RouteRow) := [(0, ⟨0, 0, 1, 1⟩), (1, ⟨2, 2, 3, 3⟩)]

/-- Claim C1 (code bug): on the synthetic matrix with N = 2 origins,
osrm_table_batch of a_calculate_distances.py extracts the diagonal entries
at row i, column i + N (values 2 and 13), as the claim requires; but
process_batch of 1_calculate_distances.py reads distances[j][0], so for
pair 1 it returns 10 / 1000 (the entry for origin 1 to origin 0) instead of
the required 13 / 1000, contradicting its own comment that only the
src[i] to dst[i] distance is wanted. -/
theorem table_extraction_divergence :
    osrm_table_batch 2 synthMatrix synthMatrix =
      [(some 2, some 2), (some 13, some 13)] ∧
    process_batch synthOracle synthBatch =
      [⟨0, 0 / 1000, 0 / 60⟩, ⟨1, 10 / 1000, 10 / 60⟩] ∧
    (10 : ℚ) / 1000 ≠ 13 / 1000 := by
  refine ⟨rfl, rfl, by norm_num⟩

/-- Claim C10: a successful backend reply with a distance of exactly 0
meters is recorded with a null distance_km, identical to the record of a
failed lookup, and counted by num_failures; a duration of exactly 0 seconds
is likewise recorded as a null duration_min. -/
theorem process_pair_zero_is_null (dist dur : ℚ) (i : ℕ) :
    (process_pair (some (0, dur)) i).distance_km = none ∧
    (process_pair (some (dist, 0)) i).duration_min = none ∧
    (process_pair (some (0, dur)) i).distance_km =
      (process_pair none i).distance_km ∧
    num_failures [some ((0 : ℚ), dur)] = 1 := by
  refine ⟨rfl, rfl, rfl, rfl⟩

/-- Claim C7 counterexample: one pair, zero backend failures, but the single
success resolves to a distance of exactly 0 m; the merged column then holds
0 non-null distances instead of N - k = 1, and the reported failure count is
1 instead of k = 0. -/
theorem partial_failure_zero_distance :
    ([some ((0 : ℚ), 5)] : List (Option (ℚ × ℚ))).countP (fun r => r.isNone) = 0 ∧
    (mergedDistances [some ((0 : ℚ), 5)]).countP (fun d => d.isSome) = 0 ∧
    num_failures [some ((0 : ℚ), 5)] = 1 ∧ (0 : ℕ) ≠ 1 := by
  refine ⟨rfl, rfl, rfl, by norm_num⟩

/-- Enumeration labels do not influence the distance_km field. -/
lemma enumFrom_map_distance (n : ℕ) (outcomes : List (Option (ℚ × ℚ))) :
    (List.enumFrom n outcomes).map (fun pr => (process_pair pr.2 pr.1).distance_km)
      = outcomes.map (fun r => (process_pair r 0).distance_km) := by
  induction outcomes generalizing n with
  | nil => rfl
  | cons r t ih =>
    simp only [List.enumFrom, List.map_cons, ih]
    rfl

/-- The distance_km field of process_pair does not depend on the index, so
the merged distance column is a plain map over the backend outcomes. -/
lemma mergedDistances_eq_map (outcomes : List (Option (ℚ × ℚ))) :
    mergedDistances outcomes =
      outcomes.map (fun r => (process_pair r 0).distance_km) := by
  unfold mergedDistances process_in_parallel_single
  rw [List.map_map, List.enum]
  exact enumFrom_map_distance 0 outcomes

/-- Counting the merged distance column: with every successful distance
nonzero, the non-null entries are exactly the successes and the null
entries exactly the failures. -/
lemma merged_counts : ∀ outcomes : List (Option (ℚ × ℚ)),
    outcomes.all nonzeroDist = true →
    ((mergedDistances outcomes).countP (fun d => d.isSome) =
        outcomes.length - outcomes.countP (fun r => r.isNone) ∧
     (mergedDistances outcomes).countP (fun d => d.isNone) =
        outcomes.countP (fun r => r.isNone)) := by
  intro outcomes
  induction outcomes with
  | nil => intro _; exact ⟨rfl, rfl⟩
  | cons r t ih =>
    intro hall
    rw [List.all_cons, Bool.and_eq_true] at hall
    obtain ⟨hr, ht⟩ := hall
    obtain ⟨ih1, ih2⟩ := ih ht
    have hle : t.countP (fun r => r.isNone) ≤ t.length := List.countP_le_length _
    rw [mergedDistances_eq_map] at ih1 ih2 ⊢
    simp [List.countP_map, process_pair] at ih1 ih2
    cases r with
    | none =>
      simp [List.countP_cons, process_pair]
      omega
    | some du =>
      have hd : du.1 ≠ 0 := by
        simpa [nonzeroDist] using hr
      simp [List.countP_cons, process_pair, if_neg hd]
      omega

/-- Claim C7 (amended): for N pairs of which the backend fails on k, and
provided every successful distance is nonzero (a distance of exactly 0
would be nulled by the truthiness test, see the counterexample), the merge
completes with exactly N - k non-null distances, num_failures reports k,
and every successfully resolved record keeps its value at its original
position. -/
theorem partial_failure_accounting (outcomes : List (Option (ℚ × ℚ)))
    (k i : ℕ) (d u : ℚ)
    (hk : outcomes.countP (fun r => r.isNone) = k)
    (hnz : outcomes.all nonzeroDist = true)
    (hi : outcomes.get? i = some (some (d, u))) :
    (mergedDistances outcomes).countP (fun d => d.isSome) = outcomes.length - k ∧
    num_failures outcomes = k ∧
    (mergedDistances outcomes).get? i = some (some (d / 1000)) := by
  obtain ⟨h1, h2⟩ := merged_counts outcomes hnz
  refine ⟨by rw [h1, hk], ?_, ?_⟩
  · show (mergedDistances outcomes).countP (fun d => d.isNone) = k
    rw [h2, hk]
  · have hd : d ≠ 0 := by
      have hmem : some (d, u) ∈ outcomes := List.get?_mem hi
      have hall := List.all_eq_true.mp hnz _ hmem
      simpa [nonzeroDist] using hall
    rw [mergedDistances_eq_map, List.get?_map, hi]
    simp [process_pair, hd]

/-- Claim C7 witness: three pairs, one backend failure, successes 5 m and
8 m; the merge keeps 2 = 3 - 1 non-null distances, reports 1 failure, and
pair 0 keeps its value 5 / 1000 km. -/
theorem partial_failure_accounting_witness :
    (mergedDistances [some ((5 : ℚ), 6), none, some ((8 : ℚ), 9)]).countP
        (fun d => d.isSome) = 3 - 1 ∧
    num_failures [some ((5 : ℚ), 6), none, some ((8 : ℚ), 9)] = 1 ∧
    (mergedDistances [some ((5 : ℚ), 6), none, some ((8 : ℚ), 9)]).get? 0 =
      some (some (5 / 1000)) :=
  partial_failure_accounting [some ((5 : ℚ), 6), none, some ((8 : ℚ), 9)]
    1 0 5 6 rfl rfl rfl

/-- Claim C6: every result yielded by the batch scheduler is tagged with the
original sequence position of its record, not its batch-relative position:
the result produced from batch-relative row j of the batch that starts at
offset start (a multiple of the batch size) carries index start + j, the
position of its source record in the full route table, while its distance
and duration are read from matrix row j of the response for that batch; so
merging by index after out-of-order completion writes each value to the
record it was computed for. -/
theorem process_in_parallel_tags_original_position
    (osrm_table : TableOracle) (route : List RouteRow) (batch_size : ℕ)
    (hb : 0 < batch_size) (res : BatchResult)
    (hres : res ∈ process_in_parallel osrm_table route batch_size) :
    ∃ start j w, (∃ m, start = m * batch_size) ∧ j < batch_size ∧
      res.index = start + j ∧ route.get? (start + j) = some w ∧
      ∃ distances durations dist dur,
        osrm_table
          (((route.enum.drop start).take batch_size).map (fun q => (q.2.X1, q.2.Y1)))
          (((route.enum.drop start).take batch_size).map (fun q => (q.2.X2, q.2.Y2)))
          = some (distances, durations) ∧
        (distances.get? j).bind (fun row => row.get? 0) = some (some dist) ∧
        (durations.get? j).bind (fun row => row.get? 0) = some (some dur) ∧
        res.osrm_distance_km = dist / 1000 ∧ res.osrm_duration_min = dur / 60 := by
  unfold process_in_parallel at hres
  rw [List.mem_flatten] at hres
  obtain ⟨L, hL, hresL⟩ := hres
  rw [List.mem_map] at hL
  obtain ⟨start, hstart, rfl⟩ := hL
  rw [List.mem_map] at hstart
  obtain ⟨m, hm, rfl⟩ := hstart
  simp only [process_batch] at hresL
  cases horacle : osrm_table
      (((route.enum.drop (m * batch_size)).take batch_size).map (fun q => (q.2.X1, q.2.Y1)))
      (((route.enum.drop (m * batch_size)).take batch_size).map (fun q => (q.2.X2, q.2.Y2))) with
  | none =>
    simp only [horacle] at hresL
    exact absurd hresL (by simp)
  | some mats =>
    obtain ⟨distances, durations⟩ := mats
    simp only [horacle] at hresL
    by_cases hemp : (distances.isEmpty || durations.isEmpty) = true
    · rw [if_pos hemp] at hresL
      exact absurd hresL (by simp)
    · rw [if_neg hemp] at hresL
      rw [List.mem_filterMap] at hresL
      obtain ⟨j, hj, hjres⟩ := hresL
      rw [List.mem_range] at hj
      have hjb : j < batch_size :=
        lt_of_lt_of_le hj (List.length_take_le _ _)
      cases hbj : ((route.enum.drop (m * batch_size)).take batch_size).get? j with
      | none =>
        simp only [hbj] at hjres
        exact absurd hjres (by simp)
      | some rw0 =>
        cases hdj : (distances.get? j).bind (fun row => row.get? 0) with
        | none =>
          simp only [hbj, hdj] at hjres
          exact absurd hjres (by simp)
        | some od =>
          cases od with
          | none =>
            simp only [hbj, hdj] at hjres
            exact absurd hjres (by simp)
          | some dist =>
            cases huj : (durations.get? j).bind (fun row => row.get? 0) with
            | none =>
              simp only [hbj, hdj, huj] at hjres
              exact absurd hjres (by simp)
            | some ou =>
              cases ou with
              | none =>
                simp only [hbj, hdj, huj] at hjres
                exact absurd hjres (by simp)
              | some dur =>
                simp only [hbj, hdj, huj, Option.some.injEq] at hjres
                rw [List.get?_take hjb, List.get?_drop, List.get?_enum] at hbj
                cases hroute : route.get? (m * batch_size + j) with
                | none =>
                  rw [hroute] at hbj
                  exact absurd hbj (by simp)
                | some w =>
                  rw [hroute] at hbj
                  simp only [Option.map_some', Option.some.injEq] at hbj
                  refine ⟨m * batch_size, j, w, ⟨m, rfl⟩, hjb, ?_, hroute,
                    distances, durations, dist, dur, horacle, hdj, huj, ?_, ?_⟩
                  · rw [← hjres, ← hbj]
                  · rw [← hjres]
                  · rw [← hjres]

/-- Three-row route table for the C6 witness. -/
def routeW : List RouteRow := [⟨0, 0, 1, 1⟩, ⟨2, 2, 3, 3⟩, ⟨4, 4, 5, 5⟩]

/-- Witness oracle: the two-row batch gets column matrices 4, 8 m and 6,
12 s; the one-row batch gets 20 m and 30 s. -/
def oracleW : TableOracle := fun src _ =>
  if src.length == 2 then some ([[some 4], [some 8]], [[some 6], [some 12]])
  else some ([[some 20]], [[some 30]])

/-- Claim C6 witness: with batch size 2 the third record is processed as
row 0 of the second batch yet its result is tagged 2, its original
position. -/
theorem process_in_parallel_tags_witness :
    (⟨2, 20 / 1000, 30 / 60⟩ : BatchResult) ∈ process_in_parallel oracleW routeW 2 ∧
    ∃ start j w, (∃ m, start = m * 2) ∧ j < 2 ∧
      (⟨2, 20 / 1000, 30 / 60⟩ : BatchResult).index = start + j ∧
      routeW.get? (start + j) = some w ∧
      ∃ distances durations dist dur,
        oracleW
          (((routeW.enum.drop start).take 2).map (fun q => (q.2.X1, q.2.Y1)))
          (((routeW.enum.drop start).take 2).map (fun q => (q.2.X2, q.2.Y2)))
          = some (distances, durations) ∧
        (distances.get? j).bind (fun row => row.get? 0) = some (some dist) ∧
        (durations.get? j).bind (fun row => row.get? 0) = some (some dur) ∧
        (⟨2, 20 / 1000, 30 / 60⟩ : BatchResult).osrm_distance_km = dist / 1000 ∧
        (⟨2, 20 / 1000, 30 / 60⟩ : BatchResult).osrm_duration_min = dur / 60 := by
  have hmem : (⟨2, 20 / 1000, 30 / 60⟩ : BatchResult) ∈
      process_in_parallel oracleW routeW 2 := by
    have he : process_in_parallel oracleW routeW 2 =
        [⟨0, 4 / 1000, 6 / 60⟩, ⟨1, 8 / 1000, 12 / 60⟩, ⟨2, 20 / 1000, 30 / 60⟩] := rfl
    rw [he]
    simp
  exact ⟨hmem, process_in_parallel_tags_original_position oracleW routeW 2
    (by norm_num) ⟨2, 20 / 1000, 30 / 60⟩ hmem⟩
